import Mathlib

/-!
# Verification of the expense normalization engine and waterfall layout

Shallow embedding of `src/finances/expenses/expense_models.py` and
`src/finances/expenses/expense_charts.py`.

Modelling conventions:
* Python floats are modelled as exact rationals (`ℚ`); the float literals
  `1.1570`, `6.1690`, `146097 / 400 / 12` are carried as the exact rationals
  they denote.
* A Python function that can raise is modelled as `Except PyError`; the
  constructors mirror the Python exception classes raised by the source
  (`ValueError`, `KeyError`, `TypeError`, `ZeroDivisionError`).
* Optional values (`None` in Python) are `Option`; Python truthiness of a
  string (`not s` is true for `None` and `""`) is `isFalsy`.
-/

/-- The Python exceptions the embedded code can raise. -/
inductive PyError where
  | valueError : String → PyError
  | keyError : String → PyError
  | typeError : String → PyError
  | zeroDivisionError : String → PyError
deriving DecidableEq, Repr

/-- The `Expense` dataclass of `expense_models.py` (raw fields only; the four
derived `*_value*` fields are computed by `normalize_value` and are not part of
the input state the claims quantify over). `repeat_every` defaults to
`DEFAULT_REPEAT_EVERY = 1` as in the dataclass. -/
structure Expense where
  account_id : Option String
  name : Option String
  description : Option String
  category : Option String
  value : Option ℚ
  currency : Option String
  repeat_every_unit : Option String
  repeat_every : ℚ := 1
deriving DecidableEq, Repr

/-- Python truthiness test for an optional string: `not s` is `True` exactly
for `None` and the empty string. -/
def isFalsy : Option String → Bool
  | none => true
  | some s => s == ""

/-- The `rates_to_eur` table local to `get_fx_rate` (lines 97-101 of
`expense_models.py`): `EUR ↦ 1.0`, `USD ↦ 1 / 1.1570`, `BRL ↦ 1 / 6.1690`,
with the float literals read as exact rationals. -/
def rates_to_eur (c : String) : Option ℚ :=
  if c = "EUR" then some 1
  else if c = "USD" then some (1 / (11570 / 10000))
  else if c = "BRL" then some (1 / (61690 / 10000))
  else none

/-- `get_fx_rate` (lines 91-109 of `expense_models.py`). If the target is
falsy, the source is falsy, or they are equal, the multiplier is `1.0` with no
table lookup; otherwise both codes must be in `rates_to_eur` or a `ValueError`
naming both codes is raised; the rate pivots through EUR. -/
def get_fx_rate (currency target_currency : Option String) : Except PyError ℚ :=
  if isFalsy target_currency || isFalsy currency || currency == target_currency then
    .ok 1
  else
    let c := currency.getD ""
    let t := target_currency.getD ""
    match rates_to_eur c, rates_to_eur t with
    | some value_in_eur, some target_rate =>
        if t = "EUR" then .ok value_in_eur else .ok (value_in_eur / target_rate)
    | _, _ =>
        .error (.valueError ("Unsupported currency conversion: " ++ c ++ " -> " ++ t))

/-- `days_in_time_unit` (lines 83-89 of `expense_models.py`): the dict lookup
`{days: 1, weeks: 7, months: 146097/400/12, years: 146097/400}[time_unit]`,
raising `KeyError(time_unit)` for any other key (for the key `None` Python
reports the key `None`; the model carries its repr). -/
def days_in_time_unit (time_unit : Option String) : Except PyError ℚ :=
  match time_unit with
  | none => .error (.keyError "None")
  | some u =>
    if u = "days" then .ok 1
    else if u = "weeks" then .ok 7
    else if u = "months" then .ok (146097 / 400 / 12)
    else if u = "years" then .ok (146097 / 400)
    else .error (.keyError u)

/-- `time_conversion_factor` (lines 78-81 of `expense_models.py`):
`days_in_time_unit(target_unit) / (interval * days_in_time_unit(interval_unit))`,
evaluating the interval unit first as the source does, and raising
`ZeroDivisionError` when the divisor is zero (Python float division). -/
def time_conversion_factor (interval : ℚ) (interval_unit target_unit : Option String) :
    Except PyError ℚ := do
  let interval_unit_days ← days_in_time_unit interval_unit
  let days_per_interval := interval * interval_unit_days
  let days_per_target_unit ← days_in_time_unit target_unit
  if days_per_interval = 0 then
    .error (.zeroDivisionError "float division by zero")
  else
    .ok (days_per_target_unit / days_per_interval)

/-- `normalize_value` (lines 73-76 of `expense_models.py`): FX rate first,
then the time factor, then `expense.value * fx_rate * time_factor`. When
`expense.value` is `None` the multiplication raises `TypeError` (there is no
`None` check in the source). -/
def normalize_value (expense : Expense) (target_currency target_time_unit : Option String) :
    Except PyError ℚ := do
  let fx_rate ← get_fx_rate expense.currency target_currency
  let time_factor ←
    time_conversion_factor expense.repeat_every expense.repeat_every_unit target_time_unit
  match expense.value with
  | none => .error (.typeError "unsupported operand type(s) for *: NoneType and float")
  | some v => .ok (v * fx_rate * time_factor)

/-! ## Waterfall layout (`expense_charts.py`)

The two plot functions `plot_expenses_waterfall` (lines 18-95) and
`plot_category_waterfall` (lines 98-175) compute an identical layout, differing
only in the anchor name (`"Rent"` vs `"Housing"`) and in whether the rows are
raw items or per-category sums. The layout core is embedded once, over a list
of `(name, value, category)` items, and the two plot functions instantiate it.
Drawing calls (figure, bars, legend) are presentation and are not modelled. -/

/-- One input row of the layout: display name, numeric value, category.
For `plot_expenses_waterfall` these are the dataframe columns `name`,
`monthly_value_eur`, `category`; for `plot_category_waterfall` the name is the
category itself. -/
structure Item where
  name : String
  value : ℚ
  category : Option String
deriving DecidableEq, Repr

/-- One output row of the layout: the parallel lists `all_names`,
`all_values`, `all_cumulative`, `all_categories` of the source, bundled. -/
structure RenderRow where
  name : String
  value : ℚ
  cumulative : ℚ
  category : Option String
deriving DecidableEq, Repr

/-- One step of the insertion argsort: place index `i` after every already
placed index whose value is at most `values[i]` (a stable tie-break). -/
def argInsert (values : List ℚ) (i : Nat) : List Nat → List Nat
  | [] => [i]
  | j :: rest =>
    if values.getD j 0 ≤ values.getD i 0 then j :: argInsert values i rest
    else i :: j :: rest

/-- Models `np.argsort(values)` (lines 25 and 108 of `expense_charts.py`):
the indices that arrange `values` in ascending order. numpy's default kind is
quicksort, whose order among equal values is unspecified; this model uses a
stable insertion argsort, which coincides with numpy's behaviour up to the
order of equal values (exactly, for arrays of at most 16 elements, where
numpy itself falls back to an insertion sort). No theorem below depends on
the order this model gives to equal values. -/
def npArgsort (values : List ℚ) : List Nat :=
  (List.range values.length).foldl (fun acc i => argInsert values i acc) []

/-- The items rearranged by `npArgsort` on their values (lines 26-28: the
sorted index array applied to the parallel `names`/`values`/`categories`
arrays). -/
def sortedItems (items : List Item) : List Item :=
  (npArgsort (items.map (fun it => it.value))).map
    (fun i => items.getD i ⟨"", 0, none⟩)

/-- `np.cumsum(values)`: inclusive prefix sums. -/
def npCumsum (values : List ℚ) : List ℚ :=
  (values.scanl (fun a b => a + b) 0).tail

/-- Line 30 / 112: `cumulative = np.cumsum(values_sorted) - values_sorted`,
the exclusive prefix sums (each row's left offset). -/
def cumulativeOffsets (values : List ℚ) : List ℚ :=
  List.zipWith (fun a b => a - b) (npCumsum values) values

/-- First index of `anchor` in `names`, as `np.where(names == anchor)[0][0]`
(lines 32 / 114). -/
def anchorIdx (anchor : String) : List String → Option Nat
  | [] => none
  | n :: rest => if n = anchor then some 0 else (anchorIdx anchor rest).map (· + 1)

/-- Lines 32-36 / 114-118: the insertion index for the synthetic TOTAL row is
one past the first occurrence of the anchor name, or `0` when the anchor is
absent. -/
def insertionIndex (anchor : String) (names : List String) : Nat :=
  match anchorIdx anchor names with
  | none => 0
  | some i => i + 1

/-- Python `list.insert(k, a)`: inserts before position `k`, clamping `k` to
the end of the list. -/
def pyInsert (a : α) : Nat → List α → List α
  | _, [] => [a]
  | 0, x :: xs => a :: x :: xs
  | Nat.succ k, x :: xs => x :: pyInsert a k xs

/-- Zip of the three parallel sorted arrays with their offsets into rows
(the source keeps them as parallel lists; rows bundle index-aligned entries). -/
def mkRows : List Item → List ℚ → List RenderRow
  | it :: rest, c :: cs => ⟨it.name, it.value, c, it.category⟩ :: mkRows rest cs
  | _, _ => []

/-- Lines 25-48 / 108-128 of `expense_charts.py`: sort ascending by value,
compute exclusive cumulative offsets, and splice in the synthetic TOTAL row
(name `"TOTAL"`, value `values_sorted.sum()`, offset `0`, category label
`"Total"`) at the insertion index determined by the anchor. -/
def waterfallRows (anchor : String) (items : List Item) : List RenderRow :=
  let sorted := sortedItems items
  let values := sorted.map (fun it => it.value)
  let names := sorted.map (fun it => it.name)
  let cumulative := cumulativeOffsets values
  let k := insertionIndex anchor names
  pyInsert ⟨"TOTAL", values.sum, 0, some "Total"⟩ k (mkRows sorted cumulative)

/-- Line 48 / 128: `total_value = values_sorted.sum()`, the grand total used
by every percent label. -/
def grandTotal (items : List Item) : ℚ :=
  ((sortedItems items).map (fun it => it.value)).sum

/-- Python `int(round(x))` on a float: round half to even, as `round` does. -/
def pyRound (q : ℚ) : ℤ :=
  let f := ⌊q⌋
  let r := q - f
  if r < 1 / 2 then f
  else if 1 / 2 < r then f + 1
  else if f % 2 = 0 then f else f + 1

/-- Lines 72-74 / 152-154: each bar's percent label,
`int(round(100 * value / total_value)) if total_value > 0 else 0`, computed
for every spliced row (the TOTAL row included). -/
def waterfallPercents (anchor : String) (items : List Item) : List ℤ :=
  (waterfallRows anchor items).map
    (fun r => if 0 < grandTotal items then pyRound (100 * r.value / grandTotal items) else 0)

/-- `plot_expenses_waterfall` (lines 18-95): the layout it draws, with anchor
item name `"Rent"`. -/
def plot_expenses_waterfall_rows (items : List Item) : List RenderRow :=
  waterfallRows "Rent" items

/-- The distinct non-null categories of the items, sorted alphabetically, as
`pandas.groupby` orders its keys (line 104; null keys are dropped, lines
104-106). -/
def categoryKeys (items : List Item) : List String :=
  List.insertionSort (fun a b => a ≤ b) (items.filterMap (fun it => it.category)).dedup

/-- Lines 104-110: the per-category items, each category with the sum of the
values carrying it, null categories dropped. -/
def categoryItems (items : List Item) : List Item :=
  (categoryKeys items).map
    (fun c =>
      ⟨c, ((items.filter (fun it => it.category == some c)).map (fun it => it.value)).sum,
        some c⟩)

/-- `plot_category_waterfall` (lines 98-175): the layout it draws, over the
per-category sums, with anchor category `"Housing"`. -/
def plot_category_waterfall_rows (items : List Item) : List RenderRow :=
  waterfallRows "Housing" (categoryItems items)

/-! ## Structural lemmas -/

lemma length_pyInsert (a : α) : ∀ (k : Nat) (l : List α), (pyInsert a k l).length = l.length + 1 := by
  intro k l
  induction l generalizing k with
  | nil => cases k <;> simp [pyInsert]
  | cons x xs ih =>
    cases k with
    | zero => simp [pyInsert]
    | succ k => simp [pyInsert, ih]

lemma eraseIdx_pyInsert (a : α) :
    ∀ (k : Nat) (l : List α), k ≤ l.length → (pyInsert a k l).eraseIdx k = l := by
  intro k l
  induction l generalizing k with
  | nil =>
    intro h
    have : k = 0 := Nat.le_zero.mp h
    subst this
    simp [pyInsert, List.eraseIdx]
  | cons x xs ih =>
    intro h
    cases k with
    | zero => simp [pyInsert, List.eraseIdx]
    | succ k =>
      simp only [pyInsert, List.eraseIdx]
      rw [ih k (by simpa using h)]

lemma getD_pyInsert (a d : α) :
    ∀ (k : Nat) (l : List α), k ≤ l.length → (pyInsert a k l).getD k d = a := by
  intro k l
  induction l generalizing k with
  | nil =>
    intro h
    have : k = 0 := Nat.le_zero.mp h
    subst this
    simp [pyInsert]
  | cons x xs ih =>
    intro h
    cases k with
    | zero => simp [pyInsert]
    | succ k =>
      simp only [pyInsert, List.getD_cons_succ]
      exact ih k (by simpa using h)

lemma anchorIdx_lt_length (anchor : String) :
    ∀ (names : List String) (i : Nat), anchorIdx anchor names = some i → i < names.length := by
  intro names
  induction names with
  | nil => intro i h; simp [anchorIdx] at h
  | cons n rest ih =>
    intro i h
    by_cases hn : n = anchor
    · simp only [anchorIdx, if_pos hn, Option.some.injEq] at h
      simp only [List.length_cons]
      omega
    · simp only [anchorIdx, if_neg hn, Option.map_eq_some'] at h
      obtain ⟨j, hj, rfl⟩ := h
      have := ih j hj
      simp only [List.length_cons]
      omega

lemma insertionIndex_le_length (anchor : String) (names : List String) :
    insertionIndex anchor names ≤ names.length := by
  unfold insertionIndex
  cases h : anchorIdx anchor names with
  | none => simp
  | some i => exact anchorIdx_lt_length anchor names i h

lemma mkRows_length :
    ∀ (its : List Item) (cs : List ℚ), (mkRows its cs).length = min its.length cs.length := by
  intro its
  induction its with
  | nil => intro cs; cases cs <;> simp [mkRows]
  | cons it rest ih =>
    intro cs
    cases cs with
    | nil => simp [mkRows]
    | cons c cs => simp [mkRows, ih, Nat.succ_min_succ]

lemma mkRows_map_value :
    ∀ (its : List Item) (cs : List ℚ), its.length ≤ cs.length →
      (mkRows its cs).map (fun r => r.value) = its.map (fun it => it.value) := by
  intro its
  induction its with
  | nil => intro cs _; cases cs <;> simp [mkRows]
  | cons it rest ih =>
    intro cs h
    cases cs with
    | nil => simp at h
    | cons c cs =>
      simp only [mkRows, List.map_cons]
      rw [ih cs (by simpa using h)]

lemma cumulativeOffsets_length (values : List ℚ) :
    (cumulativeOffsets values).length = values.length := by
  simp [cumulativeOffsets, npCumsum, List.length_scanl]

/-- The length of the spliced base (before the TOTAL row) is the number of
sorted items. -/
lemma waterfall_base_length (items : List Item) :
    (mkRows (sortedItems items)
        (cumulativeOffsets ((sortedItems items).map (fun it => it.value)))).length =
      (sortedItems items).length := by
  rw [mkRows_length, cumulativeOffsets_length]
  simp

/-- The insertion index never exceeds the length of the base row list. -/
lemma waterfall_insertionIndex_le (anchor : String) (items : List Item) :
    insertionIndex anchor ((sortedItems items).map (fun it => it.name)) ≤
      (mkRows (sortedItems items)
          (cumulativeOffsets ((sortedItems items).map (fun it => it.value)))).length := by
  rw [waterfall_base_length]
  have h := insertionIndex_le_length anchor ((sortedItems items).map (fun it => it.name))
  simpa using h

/-- The row at the insertion index of the spliced layout is the synthetic
TOTAL row: name `"TOTAL"`, value the grand total, offset `0`, label `"Total"`. -/
lemma waterfall_row_at_insertion (anchor : String) (items : List Item) :
    (waterfallRows anchor items).getD
        (insertionIndex anchor ((sortedItems items).map (fun it => it.name)))
        ⟨"", 0, 0, none⟩ =
      ⟨"TOTAL", grandTotal items, 0, some "Total"⟩ := by
  unfold waterfallRows grandTotal
  exact getD_pyInsert _ _ _ _ (waterfall_insertionIndex_le anchor items)

/-- Removing the row at the insertion index recovers the sorted item rows, so
the values of all non-total rows sum to the grand total. -/
lemma waterfall_erase_sum (anchor : String) (items : List Item) :
    (((waterfallRows anchor items).eraseIdx
          (insertionIndex anchor ((sortedItems items).map (fun it => it.name)))).map
        (fun r => r.value)).sum = grandTotal items := by
  unfold waterfallRows grandTotal
  rw [eraseIdx_pyInsert _ _ _ (waterfall_insertionIndex_le anchor items)]
  rw [mkRows_map_value _ _ (by rw [cumulativeOffsets_length]; simp)]

lemma map_getD (f : α → β) : ∀ (l : List α) (n : Nat) (d : α),
    (l.map f).getD n (f d) = f (l.getD n d) := by
  intro l
  induction l with
  | nil => intro n d; simp
  | cons x xs ih => intro n d; cases n <;> simp [ih]

/-! ## Claim theorems: waterfall layout -/

/-- C3 (counterexample): on the empty input the layout is not the empty
sequence — the synthetic TOTAL row is spliced in unconditionally
(`all_names.insert(insert_at, "TOTAL")` runs even when there are no items). -/
theorem c3_counterexample : plot_expenses_waterfall_rows [] ≠ [] := by decide

/-- C3 (amended): for the empty input the layout produces exactly one row,
the synthetic TOTAL row with value `0` and cumulative offset `0`, inserted at
the head (the anchor is absent, so the insertion index is `0`); no error is
raised. -/
theorem c3_empty_input_total_row :
    plot_expenses_waterfall_rows [] = [⟨"TOTAL", 0, 0, some "Total"⟩] := by decide

/-- C4 (counterexample): for input `[("A", -100, "X")]` the grand total is
`-100 < 0`, and the code forces every percent to `0`, while the claimed
formula `round(100 * value / grandTotal)` gives `100`; so the percent is not
given by the formula for a negative grand total. -/
theorem c4_counterexample :
    waterfallPercents "Rent" [⟨"A", -100, some "X"⟩] = [0, 0] ∧
    pyRound (100 * (-100) / (-100) : ℚ) = 100 ∧
    waterfallPercents "Rent" [⟨"A", -100, some "X"⟩] ≠
      [pyRound (100 * (-100) / (-100) : ℚ), pyRound (100 * (-100) / (-100) : ℚ)] := by
  have h : waterfallPercents "Rent" [⟨"A", -100, some "X"⟩] = [0, 0] := by
    norm_num [waterfallPercents, waterfallRows, sortedItems, npArgsort, argInsert, npCumsum,
      cumulativeOffsets, insertionIndex, anchorIdx, pyInsert, mkRows, grandTotal, pyRound,
      List.scanl, List.foldl]
  have h100 : pyRound (100 * (-100) / (-100) : ℚ) = 100 := by norm_num [pyRound]
  refine ⟨h, h100, ?_⟩
  rw [h, h100]
  decide

/-- C4 (amended): for every non-empty input, each row's percent equals
`round(100 * value / grandTotal)` whenever the grand total is strictly
positive, and is forced to `0` whenever the grand total is zero **or
negative** (the source guards with `total_value > 0`, not `total_value != 0`);
the grand total is the sum of all non-total rows' values. -/
theorem c4_percent_rule (anchor : String) (items : List Item) (_hne : items ≠ [])
    (i : Nat) (_hi : i < (waterfallPercents anchor items).length) :
    (waterfallPercents anchor items).getD i 0 =
      (if 0 < grandTotal items then
          pyRound (100 * ((waterfallRows anchor items).getD i ⟨"", 0, 0, none⟩).value /
            grandTotal items)
        else 0) ∧
    (((waterfallRows anchor items).eraseIdx
          (insertionIndex anchor ((sortedItems items).map (fun it => it.name)))).map
        (fun r => r.value)).sum = grandTotal items := by
  constructor
  · have hd : (if 0 < grandTotal items then
        pyRound (100 * (⟨"", 0, 0, none⟩ : RenderRow).value / grandTotal items)
      else (0 : ℤ)) = (0 : ℤ) := by
      by_cases h : 0 < grandTotal items <;> norm_num [h, pyRound]
    have key := map_getD
      (fun r : RenderRow =>
        if 0 < grandTotal items then pyRound (100 * r.value / grandTotal items) else 0)
      (waterfallRows anchor items) i ⟨"", 0, 0, none⟩
    rw [hd] at key
    unfold waterfallPercents
    exact key
  · exact waterfall_erase_sum anchor items

/-- C4 (witness): the amended rule evaluated at the single item
`("Rent", 1000, "Housing")`, row `0` (the Rent row itself): grand total
`1000 > 0`, percent `100`. -/
theorem c4_percent_rule_witness :
    (waterfallPercents "Rent" [⟨"Rent", 1000, some "Housing"⟩]).getD 0 0 =
      (if 0 < grandTotal [⟨"Rent", 1000, some "Housing"⟩] then
          pyRound (100 *
            ((waterfallRows "Rent" [⟨"Rent", 1000, some "Housing"⟩]).getD 0
                ⟨"", 0, 0, none⟩).value /
            grandTotal [⟨"Rent", 1000, some "Housing"⟩])
        else 0) ∧
    (((waterfallRows "Rent" [⟨"Rent", 1000, some "Housing"⟩]).eraseIdx
          (insertionIndex "Rent"
            ((sortedItems [⟨"Rent", 1000, some "Housing"⟩]).map (fun it => it.name)))).map
        (fun r => r.value)).sum = grandTotal [⟨"Rent", 1000, some "Housing"⟩] :=
  c4_percent_rule "Rent" [⟨"Rent", 1000, some "Housing"⟩] (by simp) 0
    (by norm_num [waterfallPercents, waterfallRows, sortedItems, npArgsort, argInsert,
      npCumsum, cumulativeOffsets, insertionIndex, anchorIdx, pyInsert, mkRows,
      List.scanl, List.foldl])

/-- C9: for every non-empty input (and either anchor), the row spliced at the
insertion index is the synthetic TOTAL row: its value is the grand total, its
cumulative left-offset is `0`, and its value equals the sum of the values of
all other (non-total) rows of the layout. -/
theorem c9_total_row (anchor : String) (items : List Item) (_hne : items ≠ []) :
    (waterfallRows anchor items).getD
        (insertionIndex anchor ((sortedItems items).map (fun it => it.name)))
        ⟨"", 0, 0, none⟩ =
      ⟨"TOTAL", grandTotal items, 0, some "Total"⟩ ∧
    (((waterfallRows anchor items).eraseIdx
          (insertionIndex anchor ((sortedItems items).map (fun it => it.name)))).map
        (fun r => r.value)).sum = grandTotal items :=
  ⟨waterfall_row_at_insertion anchor items, waterfall_erase_sum anchor items⟩

/-- C9 (witness): the TOTAL row property at the concrete input
`[("Coffee", 50, "Food"), ("Rent", 1000, "Housing")]` with anchor `"Rent"`. -/
theorem c9_total_row_witness :
    (waterfallRows "Rent" [⟨"Coffee", 50, some "Food"⟩, ⟨"Rent", 1000, some "Housing"⟩]).getD
        (insertionIndex "Rent"
          ((sortedItems [⟨"Coffee", 50, some "Food"⟩, ⟨"Rent", 1000, some "Housing"⟩]).map
            (fun it => it.name)))
        ⟨"", 0, 0, none⟩ =
      ⟨"TOTAL", grandTotal [⟨"Coffee", 50, some "Food"⟩, ⟨"Rent", 1000, some "Housing"⟩], 0,
        some "Total"⟩ ∧
    (((waterfallRows "Rent"
            [⟨"Coffee", 50, some "Food"⟩, ⟨"Rent", 1000, some "Housing"⟩]).eraseIdx
          (insertionIndex "Rent"
            ((sortedItems [⟨"Coffee", 50, some "Food"⟩, ⟨"Rent", 1000, some "Housing"⟩]).map
              (fun it => it.name)))).map
        (fun r => r.value)).sum =
      grandTotal [⟨"Coffee", 50, some "Food"⟩, ⟨"Rent", 1000, some "Housing"⟩] :=
  c9_total_row "Rent" [⟨"Coffee", 50, some "Food"⟩, ⟨"Rent", 1000, some "Housing"⟩] (by simp)

/-! ## Evaluation lemmas for the time-unit table -/

lemma days_in_time_unit_days : days_in_time_unit (some "days") = .ok 1 := by
  simp only [days_in_time_unit]
  simp

lemma days_in_time_unit_weeks : days_in_time_unit (some "weeks") = .ok 7 := by
  simp only [days_in_time_unit]
  rw [if_neg (by decide)]
  simp

lemma days_in_time_unit_months :
    days_in_time_unit (some "months") = .ok (146097 / 400 / 12) := by
  simp only [days_in_time_unit]
  rw [if_neg (by decide), if_neg (by decide)]
  simp

lemma days_in_time_unit_years :
    days_in_time_unit (some "years") = .ok (146097 / 400) := by
  simp only [days_in_time_unit]
  rw [if_neg (by decide), if_neg (by decide), if_neg (by decide)]
  simp

/-- Shape of `time_conversion_factor` once both unit lookups succeed. -/
lemma time_conversion_factor_of_lookups (n d1 d2 : ℚ) {iu tu : Option String}
    (h1 : days_in_time_unit iu = .ok d1) (h2 : days_in_time_unit tu = .ok d2) :
    time_conversion_factor n iu tu =
      if n * d1 = 0 then .error (.zeroDivisionError "float division by zero")
      else .ok (d2 / (n * d1)) := by
  simp [time_conversion_factor, h1, h2, bind, Except.bind]

/-- Every valid time unit has a positive day length in the table. -/
lemma days_in_time_unit_of_valid (u : String)
    (h : u ∈ (["days", "weeks", "months", "years"] : List String)) :
    ∃ d : ℚ, days_in_time_unit (some u) = .ok d ∧ 0 < d := by
  fin_cases h
  · exact ⟨1, days_in_time_unit_days, by norm_num⟩
  · exact ⟨7, days_in_time_unit_weeks, by norm_num⟩
  · exact ⟨146097 / 400 / 12, days_in_time_unit_months, by norm_num⟩
  · exact ⟨146097 / 400, days_in_time_unit_years, by norm_num⟩

/-! ## Claim theorems: normalization engine -/

/-- C2: at the failing input — an expense whose raw value is absent, with a
supported currency and time unit so every earlier step succeeds — the engine
raises a `TypeError` from `None * float`; it does not return a null result. -/
theorem c2_absent_value_raises :
    normalize_value
        ⟨some "acc1", some "Netflix", none, some "Leisure", none, some "EUR", some "months", 1⟩
        (some "EUR") (some "months") =
      .error (.typeError "unsupported operand type(s) for *: NoneType and float") := by
  have htf := time_conversion_factor_of_lookups 1 (146097 / 400 / 12) (146097 / 400 / 12)
    days_in_time_unit_months days_in_time_unit_months
  rw [if_neg (by norm_num)] at htf
  norm_num [normalize_value, get_fx_rate, isFalsy, htf, bind, Except.bind]

/-- C5: whenever the target currency is omitted, the source currency is
absent, or the source equals the target, the FX multiplier is exactly `1`,
and the normalized result is exactly `rawValue * timeFactor`. -/
theorem c5_fx_identity (e : Expense) (tc ttu : Option String) (v f : ℚ)
    (hcase : tc = none ∨ e.currency = none ∨ e.currency = tc) :
    get_fx_rate e.currency tc = .ok 1 ∧
    (e.value = some v →
      time_conversion_factor e.repeat_every e.repeat_every_unit ttu = .ok f →
      normalize_value e tc ttu = .ok (v * f)) := by
  have hfx : get_fx_rate e.currency tc = .ok 1 := by
    rcases hcase with h | h | h
    · subst h; simp [get_fx_rate, isFalsy]
    · simp [get_fx_rate, h, isFalsy]
    · simp [get_fx_rate, h]
  refine ⟨hfx, fun hv htf => ?_⟩
  simp [normalize_value, hfx, htf, hv, bind, Except.bind]

/-- C5 (witness): value `100` USD per `1` month, requested in USD per year:
the FX multiplier is `1` and the result is `100 * 12 = 1200` exactly. -/
theorem c5_fx_identity_witness :
    get_fx_rate (some "USD") (some "USD") = .ok 1 ∧
    normalize_value
        ⟨none, some "BankFee", none, none, some 100, some "USD", some "months", 1⟩
        (some "USD") (some "years") = .ok 1200 := by
  have htf : time_conversion_factor 1 (some "months") (some "years") = .ok 12 := by
    rw [time_conversion_factor_of_lookups 1 (146097 / 400 / 12) (146097 / 400)
      days_in_time_unit_months days_in_time_unit_years, if_neg (by norm_num)]
    norm_num
  have h := c5_fx_identity
    ⟨none, some "BankFee", none, none, some 100, some "USD", some "months", 1⟩
    (some "USD") (some "years") 100 12 (Or.inr (Or.inr rfl))
  refine ⟨h.1, ?_⟩
  have h2 := h.2 rfl htf
  norm_num at h2
  exact h2

/-- C6: when source and target are distinct, both non-empty, and at least one
is outside the rate table, `get_fx_rate` raises `ValueError` with the message
`"Unsupported currency conversion: <source> -> <target>"`, naming both
codes. -/
theorem c6_unsupported_currency (c t : String) (hc : c ≠ "") (ht : t ≠ "") (hne : c ≠ t)
    (hmiss : rates_to_eur c = none ∨ rates_to_eur t = none) :
    get_fx_rate (some c) (some t) =
      .error (.valueError ("Unsupported currency conversion: " ++ c ++ " -> " ++ t)) := by
  rcases hmiss with h | h
  · cases hrt : rates_to_eur t <;> simp [get_fx_rate, isFalsy, hc, ht, hne, h, hrt]
  · cases hrc : rates_to_eur c <;> simp [get_fx_rate, isFalsy, hc, ht, hne, h, hrc]

/-- C6 (witness): the spec's example, `"JPY" -> "EUR"`. -/
theorem c6_unsupported_currency_witness :
    get_fx_rate (some "JPY") (some "EUR") =
      .error (.valueError "Unsupported currency conversion: JPY -> EUR") := by
  have h := c6_unsupported_currency "JPY" "EUR" (by decide) (by decide) (by decide)
    (Or.inl (by simp [rates_to_eur]))
  exact h

/-- C7: for every time unit outside `{days, weeks, months, years}` the lookup
raises `KeyError` naming the unit, and the error propagates through
`time_conversion_factor` and `normalize_value` (never defaulted or coerced). -/
theorem c7_unsupported_unit (u : String)
    (hu : u ∉ (["days", "weeks", "months", "years"] : List String)) :
    days_in_time_unit (some u) = .error (.keyError u) ∧
    (∀ (n : ℚ) (tu : Option String),
      time_conversion_factor n (some u) tu = .error (.keyError u)) ∧
    (∀ (e : Expense) (tc ttu : Option String) (r : ℚ),
      e.repeat_every_unit = some u → get_fx_rate e.currency tc = .ok r →
      normalize_value e tc ttu = .error (.keyError u)) := by
  obtain ⟨h1, h2, h3, h4⟩ : u ≠ "days" ∧ u ≠ "weeks" ∧ u ≠ "months" ∧ u ≠ "years" := by
    simp only [List.mem_cons, List.not_mem_nil, or_false, not_or] at hu
    exact hu
  have hd : days_in_time_unit (some u) = .error (.keyError u) := by
    simp [days_in_time_unit, h1, h2, h3, h4]
  refine ⟨hd, fun n tu => ?_, fun e tc ttu r hru hfx => ?_⟩
  · simp [time_conversion_factor, hd, bind, Except.bind]
  · simp [normalize_value, hfx, time_conversion_factor, hru, hd, bind, Except.bind]

/-- C7 (witness): the unsupported unit `"fortnights"`. -/
theorem c7_unsupported_unit_witness :
    days_in_time_unit (some "fortnights") = .error (.keyError "fortnights") ∧
    time_conversion_factor 2 (some "fortnights") (some "months") =
      .error (.keyError "fortnights") ∧
    normalize_value
        ⟨none, some "Gym", none, none, some 30, some "EUR", some "fortnights", 2⟩
        none none = .error (.keyError "fortnights") := by
  have h := c7_unsupported_unit "fortnights" (by decide)
  exact ⟨h.1, h.2.1 2 (some "months"),
    h.2.2 ⟨none, some "Gym", none, none, some 30, some "EUR", some "fortnights", 2⟩
      none none 1 rfl (by simp [get_fx_rate, isFalsy])⟩

/-- C8: for every positive interval count `n`, converting months to years
(factor `12 / n`) and back with the inverse-anchored interval (factor
`n / 12`) composes to the exact identity, so the round trip is within the
`1e-9` tolerance (the error is `0` in exact arithmetic). -/
theorem c8_round_trip (n v : ℚ) (hn : 0 < n) :
    time_conversion_factor n (some "months") (some "years") = .ok (12 / n) ∧
    time_conversion_factor n⁻¹ (some "years") (some "months") = .ok (n / 12) ∧
    v * (12 / n) * (n / 12) = v ∧
    |v * (12 / n) * (n / 12) - v| ≤ 1 / 1000000000 := by
  have hn0 : n ≠ 0 := ne_of_gt hn
  have h1 : time_conversion_factor n (some "months") (some "years") = .ok (12 / n) := by
    rw [time_conversion_factor_of_lookups n (146097 / 400 / 12) (146097 / 400)
      days_in_time_unit_months days_in_time_unit_years]
    rw [if_neg (by positivity)]
    congr 1
    field_simp
    ring
  have h2 : time_conversion_factor n⁻¹ (some "years") (some "months") = .ok (n / 12) := by
    rw [time_conversion_factor_of_lookups n⁻¹ (146097 / 400) (146097 / 400 / 12)
      days_in_time_unit_years days_in_time_unit_months]
    rw [if_neg (by positivity)]
    congr 1
    field_simp
    ring
  have h3 : v * (12 / n) * (n / 12) = v := by
    field_simp
  refine ⟨h1, h2, h3, ?_⟩
  rw [h3]
  simp

/-- C8 (witness): the round trip at `n = 4`, `v = 7`. -/
theorem c8_round_trip_witness :
    (0 : ℚ) < 4 ∧
    (time_conversion_factor 4 (some "months") (some "years") = .ok (12 / 4) ∧
     time_conversion_factor (4 : ℚ)⁻¹ (some "years") (some "months") = .ok (4 / 12) ∧
     (7 : ℚ) * (12 / 4) * (4 / 12) = 7 ∧
     |(7 : ℚ) * (12 / 4) * (4 / 12) - 7| ≤ 1 / 1000000000) :=
  ⟨by norm_num, c8_round_trip 4 7 (by norm_num)⟩

/-- C10: for every pair of valid time units, `time_conversion_factor` with
interval count `0` raises `ZeroDivisionError` (the divisor
`interval * days_in_time_unit(unit)` is `0`), and with any positive interval
count the divisor is nonzero and the factor is computed. -/
theorem c10_zero_interval (iu tu : String)
    (hiu : iu ∈ (["days", "weeks", "months", "years"] : List String))
    (htu : tu ∈ (["days", "weeks", "months", "years"] : List String)) :
    time_conversion_factor 0 (some iu) (some tu) =
      .error (.zeroDivisionError "float division by zero") ∧
    ∀ (n : ℚ), 0 < n → ∃ q, time_conversion_factor n (some iu) (some tu) = .ok q := by
  obtain ⟨d1, hd1, hd1pos⟩ := days_in_time_unit_of_valid iu hiu
  obtain ⟨d2, hd2, _⟩ := days_in_time_unit_of_valid tu htu
  constructor
  · rw [time_conversion_factor_of_lookups 0 d1 d2 hd1 hd2]
    simp
  · intro n hn
    refine ⟨d2 / (n * d1), ?_⟩
    rw [time_conversion_factor_of_lookups n d1 d2 hd1 hd2,
      if_neg (mul_ne_zero (ne_of_gt hn) (ne_of_gt hd1pos))]

/-- C10 (witness): interval `0` from days to weeks raises; interval `2`
succeeds. -/
theorem c10_zero_interval_witness :
    time_conversion_factor 0 (some "days") (some "weeks") =
      .error (.zeroDivisionError "float division by zero") ∧
    ∃ q, time_conversion_factor 2 (some "days") (some "weeks") = .ok q := by
  have h := c10_zero_interval "days" "weeks" (by decide) (by decide)
  exact ⟨h.1, h.2 2 (by norm_num)⟩
